import Mathlib

/-!
Shallow embedding of the protocol codec and schedule state model of
`src/bs21.py` (Renkforce BS-21 Bluetooth switch CLI), together with proofs
about the claims of the specification.

Python integers are modelled as `Int` (with `%` = `Int.emod`, which agrees
with Python's `%` for a positive modulus); Python strings are modelled as
`String` over their characters (all telegram data is ASCII, so Python's
code-point indexing and Lean's character indexing agree); code that can
raise an exception returns an `Option`/`Except`/`× Option Err` result.
-/

set_option maxRecDepth 100000

namespace BS21

/-- Error taxonomy. The source raises a single `BS21Exception` class with
distinct message strings; the specification names these kinds.
`protocolError` = "Device has explicitly responded with error!",
`malformedResponse` = "ERROR: Unexpected response from device!",
`deviceError` = "ERROR: Device returned error!" (failed acknowledgement),
`valueError`/`indexError`/`stopIteration`/`overflowError` = the built-in
Python exceptions escaping from `int(...)`, list indexing, `next(...)`
and `datetime` arithmetic, `validationError` = "Pin must be 4-digit numeric". -/
inductive Err where
  | protocolError
  | malformedResponse
  | deviceError
  | valueError
  | indexError
  | stopIteration
  | overflowError
  | validationError
deriving DecidableEq

/-- Models Python `str.startswith` on char lists. -/
def litStarts : List Char → List Char → Bool
  | _, [] => true
  | [], _ :: _ => false
  | c :: cs, d :: ds => c = d && litStarts cs ds

/-- Models Python `str.startswith(p)`. -/
def strStarts (s p : String) : Bool :=
  litStarts s.toList p.toList

/-- Digits of a char list interpreted in base 10; `none` unless the list is
a nonempty run of ASCII digits. -/
def digitsToNat (cs : List Char) : Option Nat :=
  match cs with
  | [] => none
  | _ =>
    if cs.all Char.isDigit then
      some (cs.foldl (fun acc c => acc * 10 + (c.toNat - 48)) 0)
    else none

/-- Models Python `int(s)` on the forms that occur in telegrams: an optional
sign followed by a nonempty digit run (Python additionally strips blanks and
allows `_` separators; no telegram token contains those). -/
def pyInt (s : String) : Option Int :=
  match s.toList with
  | '-' :: rest => (digitsToNat rest).map (fun n => -(n : Int))
  | '+' :: rest => (digitsToNat rest).map (fun n => (n : Int))
  | cs => (digitsToNat cs).map (fun n => (n : Int))

/-- Value of a hex digit, `none` for any other character. -/
def hexDigitVal (c : Char) : Option Nat :=
  if '0' ≤ c ∧ c ≤ '9' then some (c.toNat - 48)
  else if 'a' ≤ c ∧ c ≤ 'f' then some (c.toNat - 87)
  else if 'A' ≤ c ∧ c ≤ 'F' then some (c.toNat - 55)
  else none

/-- Hex digits of a char list; `none` unless nonempty and all hex digits. -/
def hexDigitsToNat (cs : List Char) : Option Nat :=
  match cs with
  | [] => none
  | _ => cs.foldl (fun acc c => do (← acc) * 16 + (← hexDigitVal c)) (some 0)

/-- Models Python `int(s, 16)` on the forms that occur in telegrams: an
optional sign followed by a nonempty hex-digit run (Python additionally
accepts a `0x` prefix and blanks; no telegram token contains those). -/
def pyIntHex (s : String) : Option Int :=
  match s.toList with
  | '-' :: rest => (hexDigitsToNat rest).map (fun n => -(n : Int))
  | '+' :: rest => (hexDigitsToNat rest).map (fun n => (n : Int))
  | cs => (hexDigitsToNat cs).map (fun n => (n : Int))

/-- Models Python `hex(n)` for `n ≥ 0`: `"0x"` followed by the lowercase
hex digits of `n` (`hex(0) = "0x0"`). `Nat.toDigits 16` produces exactly the
lowercase minimal digit string. -/
def pyHex (n : Nat) : String :=
  "0x" ++ String.mk (Nat.toDigits 16 n)

/-- Models Python `"%02d" % n`: decimal rendering, zero-padded on the left
to width 2 (a negative value keeps its sign, as in Python). -/
def fmt02 (n : Int) : String :=
  if 0 ≤ n ∧ n < 10 then "0" ++ toString n else toString n

/-- Embeds `State.build_time` (src/bs21.py lines 568-577) on already-parsed
integers: wraps hour/minute/second by `% 24` / `% 60` / `% 60` and renders
`"%02d:%02d:%02d"`.  It is a total function: no input raises. -/
def build_time (hour minute second : Int) : String :=
  fmt02 (hour % 24) ++ ":" ++ fmt02 (minute % 60) ++ ":" ++ fmt02 (second % 60)

/-- Embeds `State.build_time` on raw string fields: Python's `int(...)`
conversions happen first and can raise `ValueError`. -/
def build_time_str (hour minute second : String) : Option String := do
  let h ← pyInt hour
  let m ← pyInt minute
  let s ← pyInt second
  pure (build_time h m s)

/-- `State._WEEKDAYS` (src/bs21.py line 359). -/
def pyWeekdays : List String := ["Mon", "Tue", "Wed", "Thu", "Fri", "Sat", "Sun"]

/-- The weekday loop of `State.build_weekdays_and_time`: collect, in
Mon-to-Sun order, every weekday whose bit `i & d > 0` (with `i` running over
1,2,4,...,64).  For a negative `d`, Python's `&` uses the two's-complement
value, whose low 7 bits equal those of `d % 128`. -/
def weekdays_of (d : Int) : List String :=
  let n := (d % 128).toNat
  ((List.range 7).zip pyWeekdays).filterMap
    (fun p => if n.testBit p.1 then some p.2 else none)

/-- The weekday/time record built by `State.build_weekdays_and_time`. -/
structure TimeDict where
  weekday : List String
  time : String
deriving DecidableEq

/-- Embeds `State.build_weekdays_and_time` (src/bs21.py lines 547-566):
normalizes hour/minute/second, decodes the 2-hex-digit daymask `day`, and
pairs the weekday list with the rendered time.  Python evaluates the three
`int(...)` conversions first and `int(day, 16)` inside the loop; any
unparseable field raises `ValueError`, modelled by `none`. -/
def build_weekdays_and_time (day hour minute second : String) : Option TimeDict := do
  let h ← pyInt hour
  let m ← pyInt minute
  let s ← pyInt second
  let d ← pyIntHex day
  pure ⟨weekdays_of d, build_time h m s⟩

/-- ASCII uppercasing of one character, as Python `str.upper` acts on the
ASCII hex digits involved here. -/
def asciiUpper (c : Char) : Char :=
  if 'a' ≤ c ∧ c ≤ 'z' then Char.ofNat (c.toNat - 32) else c

/-- Embeds `BS21._build_daymask` (src/bs21.py lines 773-785): sum the
powers of two of the selected days, then `hex(b).replace("x", "0")[-2:].upper()`
(the replaced pattern `"x"` is a single character, so the substring
replacement is a character map). -/
def build_daymask (mon tue wed thu fri sat sun : Bool) : String :=
  let b : Nat :=
    (if mon then 1 else 0) + (if tue then 2 else 0) + (if wed then 4 else 0) +
    (if thu then 8 else 0) + (if fri then 16 else 0) + (if sat then 32 else 0) +
    (if sun then 64 else 0)
  let t := (pyHex b).toList.map (fun c => if c = 'x' then '0' else c)
  String.mk ((t.drop (t.length - 2)).map asciiUpper)

/-- A scheduler entry as built by `set_timers_from_response` and
`set_scheduler`: the dict `{"slot": ..., "type": ..., "schedule": ...}`. -/
structure Sched where
  slot : Int
  type_ : String
  schedule : TimeDict
deriving DecidableEq

/-- The random-mode entry dict built by `set_timers_from_response`. -/
structure RandomSched where
  slot : Int
  active : Bool
  schedule : TimeDict
  duration : String
deriving DecidableEq

/-- The countdown entry dict built by `set_timers_from_response`. -/
structure Countdown where
  slot : Int
  active : Bool
  type_ : String
  remaining : String
  elapsed : String
  original : String
deriving DecidableEq

/-- The mutable session state of a `State` object: the fields written by the
decode operations (`random` and `countdown` start out as the empty class
attribute `dict()`, modelled as `none`; `time` likewise). -/
structure SessionState where
  model : String
  serial : String
  firmware : String
  is_on : Bool
  is_overtemp : Bool
  is_power : Bool
  is_random : Bool
  is_countdown : Bool
  time : Option TimeDict
  schedulers : List Sched
  random : Option RandomSched
  countdown : Option Countdown
deriving DecidableEq

/-- A fresh `State` instance: empty strings, false flags, empty collections. -/
def emptySession : SessionState :=
  { model := "", serial := "", firmware := "", is_on := false,
    is_overtemp := false, is_power := false, is_random := false,
    is_countdown := false, time := none, schedulers := [], random := none,
    countdown := none }

/-- Models Python `s[a:b]` for `0 ≤ a ≤ b` on ASCII strings. -/
def pySlice (s : String) (a b : Nat) : List Char :=
  (s.toList.drop a).take (b - a)

/-- Models Python `str.split(" ")`: split at every single space, keeping
empty fields (so `"a  b"` gives `["a", "", "b"]` and `""` gives `[""]`). -/
def splitSp : List Char → List String
  | [] => [""]
  | ' ' :: rest => "" :: splitSp rest
  | c :: rest =>
    match splitSp rest with
    | t :: ts => (String.mk (c :: t.toList)) :: ts
    | [] => [String.mk [c]]

/-- Models Python list indexing `l[i]`, raising `IndexError` out of range. -/
def lget (l : List String) (i : Nat) : Except Err String :=
  match l.get? i with
  | some x => Except.ok x
  | none => Except.error Err.indexError

/-- Models Python `int(s)` raising `ValueError` on failure. -/
def toIntE (s : String) : Except Err Int :=
  match pyInt s with
  | some n => Except.ok n
  | none => Except.error Err.valueError

/-- The scheduler type string used on decode: `"on" if i <= 19 else "off"`
(src/bs21.py line 490, with slot `i + 1`). -/
def schedType (i : Nat) : String :=
  if i ≤ 19 then "on" else "off"

/-- One iteration of the scheduler-parsing loop of
`set_timers_from_response` (src/bs21.py lines 487-492): fetch the three
tokens of slot `i + 1` and build its schedule. -/
def parseOneSched (raw : List String) (i : Nat) : Except Err Sched := do
  let d ← lget raw (i * 3)
  let hh ← lget raw (i * 3 + 1)
  let mm ← lget raw (i * 3 + 2)
  match build_weekdays_and_time d hh mm "0" with
  | some t => pure { slot := (i : Int) + 1, type_ := schedType i, schedule := t }
  | none => Except.error Err.valueError

/-- The scheduler loop: Python appends to `self.schedulers` one entry per
iteration, so an exception in iteration `i` leaves the first `i` entries in
place.  Returns the (possibly partial) list plus the error, if any. -/
def parseScheds (raw : List String) : Nat → Nat → List Sched × Option Err
  | 0, _ => ([], none)
  | fuel + 1, i =>
    match parseOneSched raw i with
    | Except.error e => ([], some e)
    | Except.ok s =>
      let (rest, e) := parseScheds raw fuel (i + 1)
      (s :: rest, e)

/-- The random block of `set_timers_from_response` (src/bs21.py
lines 495-501), with Python's evaluation order inside the dict literal:
`raw[5]` first, then the schedule from `raw[0..2]`, then the duration from
`raw[3..4]`. -/
def parseRandom (raw : List String) : Except Err RandomSched := do
  let s5 ← lget raw 5
  let s0 ← lget raw 0
  let s1 ← lget raw 1
  let s2 ← lget raw 2
  let sched ←
    match build_weekdays_and_time s0 s1 s2 "0" with
    | some t => Except.ok t
    | none => Except.error Err.valueError
  let s3 ← lget raw 3
  let s4 ← lget raw 4
  let dur ←
    match build_time_str s3 s4 "0" with
    | some t => Except.ok t
    | none => Except.error Err.valueError
  pure { slot := 41, active := s5 ≠ "00", schedule := sched, duration := dur }

/-- Seconds from `datetime.min` (0001-01-01 00:00:00) to
2000-01-01 00:00:00: `datetime(2000,1,1).toordinal() = 730120`. -/
def epoch2000 : Int := 730119 * 86400

/-- Seconds from `datetime.min` to `datetime.max` (9999-12-31 23:59:59):
`datetime(9999,12,31).toordinal() = 3652059`. -/
def datetimeMaxSeconds : Int := 3652058 * 86400 + 86399

/-- `strftime("%H:%M:%S")` of a datetime whose seconds-of-day is `t`. -/
def fmtHMS (t : Int) : String :=
  fmt02 (t / 3600) ++ ":" ++ fmt02 (t % 3600 / 60) ++ ":" ++ fmt02 (t % 60)

/-- The countdown block of `set_timers_from_response` (src/bs21.py
lines 504-519): `original = datetime(2000,1,1,raw[5],raw[6],raw[7])`
(the constructor raises `ValueError` outside field ranges), the remaining
seconds taken from `raw[7]` when `raw[3]` starts with `"I"`, a
`timedelta(hours=raw[1], minutes=raw[2], seconds=remSecs)`, and
`elapsed = (original - remaining).strftime("%H:%M:%S")` (the datetime
subtraction raises `OverflowError` outside year range 1..9999). -/
def parseCountdown (raw : List String) : Except Err Countdown := do
  let s5 ← lget raw 5
  let s6 ← lget raw 6
  let s7 ← lget raw 7
  let oh ← toIntE s5
  let om ← toIntE s6
  let os ← toIntE s7
  if oh < 0 ∨ 23 < oh ∨ om < 0 ∨ 59 < om ∨ os < 0 ∨ 59 < os then
    Except.error Err.valueError
  else
    let s3 ← lget raw 3
    let remSecs ← if strStarts s3 "I" then toIntE s7 else toIntE s3
    let s1 ← lget raw 1
    let s2 ← lget raw 2
    let rh ← toIntE s1
    let rm ← toIntE s2
    let s4 ← lget raw 4
    let s0 ← lget raw 0
    let elapsedAbs := epoch2000 + oh * 3600 + om * 60 + os - (rh * 3600 + rm * 60 + remSecs)
    if elapsedAbs < 0 ∨ datetimeMaxSeconds < elapsedAbs then
      Except.error Err.overflowError
    else
      pure { slot := 43, active := s4 ≠ "00",
             type_ := if s0 ≠ "00" then "on" else "off",
             remaining := build_time rh rm remSecs,
             elapsed := fmtHMS (elapsedAbs % 86400),
             original := build_time oh om os }

/-- The captured groups of a match of `State._STATUS_PATTERN`
(src/bs21.py line 346): model, serial, on-flag, flags byte, firmware,
day hex, hours, minutes, seconds. -/
structure StatusGroups where
  g1 : String
  g2 : String
  g3 : String
  g4 : Char
  g5 : String
  g6 : String
  g7 : String
  g8 : String
  g9 : String
deriving DecidableEq

/-- All ways a greedy `[0-9]+` can match a prefix, longest first
(backtracking order of Python's `re`), each with the remaining input. -/
def digitSplits (cs : List Char) : List (List Char × List Char) :=
  let run := cs.takeWhile Char.isDigit
  let rest := cs.drop run.length
  (List.range run.length).map
    (fun j =>
      let k := run.length - j
      (run.take k, run.drop k ++ rest))

/-- Expect the literal characters `p` at the head of the input. -/
def expectLit : List Char → List Char → Option (List Char)
  | [], cs => some cs
  | _ :: _, [] => none
  | p :: ps, c :: cs => if c = p then expectLit ps cs else none

/-- Match `([0-9]{2})` and return the two digits with the remainder. -/
def matchTwoDigits : List Char → Option (String × List Char)
  | a :: b :: rest =>
    if a.isDigit ∧ b.isDigit then some (String.mk [a, b], rest) else none
  | _ => none

/-- Match the tail `([0-9]{2}) ([0-9]{2}) ([0-9]{2}) ([0-9]{2})` of the
status pattern, each group preceded by one space. -/
def matchClockGroups (cs : List Char) : Option (String × String × String × String) := do
  let cs ← expectLit [' '] cs
  let (g6, cs) ← matchTwoDigits cs
  let cs ← expectLit [' '] cs
  let (g7, cs) ← matchTwoDigits cs
  let cs ← expectLit [' '] cs
  let (g8, cs) ← matchTwoDigits cs
  let cs ← expectLit [' '] cs
  let (g9, _) ← matchTwoDigits cs
  pure (g6, g7, g8, g9)

/-- Match `(V[0-9]+.[0-9]+)` (the unescaped `.` matches any character but a
newline) followed by the clock groups, with the backtracking order of a
greedy `[0-9]+`: longest digit run first. -/
def matchFirmwareAndClock (cs : List Char) :
    Option (String × String × String × String × String) :=
  match cs with
  | 'V' :: cs1 =>
    (digitSplits cs1).findSome? (fun p =>
      match p.2 with
      | c :: r2 =>
        if c ≠ '\n' then
          (digitSplits r2).findSome? (fun q =>
            match matchClockGroups q.2 with
            | some (g6, g7, g8, g9) =>
              some (String.mk ('V' :: p.1 ++ c :: q.1), g6, g7, g8, g9)
            | none => none)
        else none
      | [] => none)
  | _ => none

/-- Try to match `State._STATUS_PATTERN` starting exactly at the head of
`cs`:
`\$(BS-21)-([0-9]+)-([01])-(.) (V[0-9]+.[0-9]+) ([0-9]{2}) ([0-9]{2}) ([0-9]{2}) ([0-9]{2})`. -/
def matchStatusAt (cs : List Char) : Option StatusGroups := do
  let cs ← expectLit "$BS-21-".toList cs
  (digitSplits cs).findSome? (fun p =>
    match p.2 with
    | '-' :: c3 :: '-' :: c4 :: rest =>
      if (c3 = '0' ∨ c3 = '1') ∧ c4 ≠ '\n' then
        match expectLit [' '] rest with
        | some rest1 =>
          match matchFirmwareAndClock rest1 with
          | some (g5, g6, g7, g8, g9) =>
            some ⟨"BS-21", String.mk p.1, String.mk [c3], c4, g5, g6, g7, g8, g9⟩
          | none => none
        | none => none
      else none
    | _ => none)

/-- Models `re.search(State._STATUS_PATTERN, r)`: try every start position
from the left and return the first (leftmost) match. -/
def searchStatus (r : String) : Option StatusGroups :=
  go r.toList
where
  go : List Char → Option StatusGroups
    | [] => none
    | c :: rest =>
      match matchStatusAt (c :: rest) with
      | some g => some g
      | none => go rest

/-- Embeds `State.set_state_from_response` (src/bs21.py lines 449-473):
`$ERR` responses and non-matching responses raise with the state untouched;
on a match the fields are assigned in source order (model, serial,
firmware, on-flag, then the four bits 2/4/8/16 of the ordinal of the flags
byte, then the weekday/time record). -/
def set_state_from_response (st : SessionState) (r : String) : SessionState × Option Err :=
  if strStarts r "$ERR" then (st, some Err.protocolError)
  else
    match searchStatus r with
    | none => (st, some Err.malformedResponse)
    | some g =>
      let st := { st with
        model := g.g1, serial := g.g2, firmware := g.g5,
        is_on := g.g3 = "1",
        is_overtemp := g.g4.toNat &&& 2 > 0,
        is_power := g.g4.toNat &&& 4 > 0,
        is_random := g.g4.toNat &&& 8 > 0,
        is_countdown := g.g4.toNat &&& 16 > 0 }
      match build_weekdays_and_time g.g6 g.g7 g.g8 g.g9 with
      | none => (st, some Err.valueError)
      | some t => ({ st with time := some t }, none)

/-- Embeds `State.set_timers_from_response` (src/bs21.py lines 475-519).
Returns the state as left by the call together with the raised error, if
any: Python's field assignments happen in sequence, so a failure while
parsing the scheduler section leaves a partially rebuilt `schedulers` list,
and a failure in the random/countdown blocks leaves the already assigned
sections in place. -/
def set_timers_from_response (st : SessionState) (r : String) : SessionState × Option Err :=
  if strStarts r "$OK" = false then (st, some Err.protocolError)
  else if r.length ≠ 442 then (st, some Err.malformedResponse)
  else
    let raw := splitSp (pySlice r 14 372)
    match parseScheds raw 40 0 with
    | (scheds, some e) => ({ st with schedulers := scheds }, some e)
    | (scheds, none) =>
      let st := { st with schedulers := scheds }
      let raw2 := splitSp (pySlice r 374 414)
      match parseRandom raw2 with
      | Except.error e => (st, some e)
      | Except.ok rnd =>
        let st := { st with random := some rnd }
        let raw3 := splitSp (pySlice r 416 439)
        match parseCountdown raw3 with
        | Except.error e => (st, some e)
        | Except.ok cd => ({ st with countdown := some cd }, none)

/-- The physical-slot computation shared by `BS21.set_scheduler`
(src/bs21.py lines 803-804) and `BS21.reset_scheduler` (lines 830-831):
`_id = int(id) % 20; _id = _id if type == "on" else _id + 20`. -/
def physical_slot (id : Int) (type_ : String) : Int :=
  let i := id % 20
  if type_ = "on" then i else i + 20

/-- `BS21._PAYLOAD["clear-all"]` (src/bs21.py line 602). -/
def clear_all_payload : String := "CLEAR00"

/-- The payload built by `BS21.reset_scheduler` (src/bs21.py line 833):
`"CLEAR%02d" % _id`. -/
def scheduler_clear_payload (id : Int) (type_ : String) : String :=
  "CLEAR" ++ fmt02 (physical_slot id type_)

/-- The payload built by `BS21.set_scheduler` (src/bs21.py line 810):
`"SET%02d %s %02d %02d %02d 01" % (_id, _d, _h, _m, _s)` with `_s = 0`. -/
def scheduler_set_payload (id : Int) (type_ : String) (hours minutes : Int)
    (mon tue wed thu fri sat sun : Bool) : String :=
  "SET" ++ fmt02 (physical_slot id type_) ++ " "
    ++ build_daymask mon tue wed thu fri sat sun ++ " "
    ++ fmt02 (hours % 24) ++ " " ++ fmt02 (minutes % 60) ++ " "
    ++ fmt02 0 ++ " 01"

/-- Embeds `BS21._get_or_create_and_add_scheduler` (src/bs21.py
lines 787-797) followed by the two field assignments of the caller.
`next(filter(lambda _s: _s["slot"] == id, ...))` is called without a
default, so a missing slot raises `StopIteration` before anything is
appended: the `if not scheduler:` create-and-append branch is dead code.
When the slot is present, the first matching dict is updated in place. -/
def upd_scheduler (scheds : List Sched) (id : Int) (type_ : String)
    (sched : TimeDict) : Option (List Sched) :=
  match scheds.findIdx? (fun s => s.slot = id) with
  | none => none
  | some i => some (scheds.set i { slot := id, type_ := type_, schedule := sched })

/-- Embeds `BS21.set_scheduler` (src/bs21.py lines 799-824).  The device's
raw response is a parameter (the transport is external); a response without
the `$OK` marker raises with the state untouched, an acknowledged command
updates the existing entry for the physical slot — or raises
`StopIteration` out of `next(...)` when the slot is absent. -/
def set_scheduler (st : SessionState) (id : Int) (type_ : String)
    (hours minutes : Int) (mon tue wed thu fri sat sun : Bool)
    (response : String) : SessionState × Option Err :=
  let pid := physical_slot id type_
  let d := build_daymask mon tue wed thu fri sat sun
  let h := hours % 24
  let m := minutes % 60
  if strStarts response "$OK" = false then (st, some Err.deviceError)
  else
    match build_weekdays_and_time d (toString h) (toString m) "0" with
    | none => (st, some Err.valueError)  -- unreachable: the rendered fields always parse
    | some t =>
      match upd_scheduler st.schedulers pid (if pid ≤ 20 then "on" else "off") t with
      | none => (st, some Err.stopIteration)
      | some scheds => ({ st with schedulers := scheds }, none)

/-- Embeds `Alias.validate_pin` (src/bs21.py lines 190-197):
`int(pin) >= 0 and int(pin) <= 9999`, `False` when `int` raises. -/
def validate_pin (pin : String) : Bool :=
  match pyInt pin with
  | some n => decide (0 ≤ n ∧ n ≤ 9999)
  | none => false

/-- Embeds `BS21.change_pin` (src/bs21.py lines 991-1004) together with the
envelope added by `BS21._send` (line 658, `"%s#%s\r\n" % (payload, pin)`).
The source formats the `"NEWC #%s "` payload with the *current* session pin
(`self._state.pin`), then overwrites the session pin with `newpin` *before*
sending, so `_send` wires the new pin in the envelope; the response is
never inspected.  Returns the payload, the wire telegram and the session
pin after the call. -/
def change_pin (pin newpin : String) : Except Err (String × String × String) :=
  if validate_pin newpin = false then Except.error Err.validationError
  else
    let payload := "NEWC #" ++ pin ++ " "
    let pin2 := newpin
    Except.ok (payload, payload ++ "#" ++ pin2 ++ "\r\n", pin2)

/-- Models the `.seconds` attribute of a Python `timedelta` whose total
(floor) length is `total` seconds: `timedelta` is normalized so that
`0 <= seconds < 86400` with any remainder pushed into (possibly negative)
`days`. -/
def timedelta_seconds_attr (total : Int) : Nat :=
  (total % 86400).toNat

/-- Embeds the duration computation of `BS21.set_countdown_until`
(src/bs21.py lines 932-943): `then = datetime(1900, 1, 1, hour % 24,
minute % 60, 0)`, `duration = then - now`, and the triple
`(duration.seconds // 3600, duration.seconds % 3600 // 60,
duration.seconds % 60)` handed to `set_countdown`.  `nowTotal` is the
floor number of seconds of `datetime.now()` measured from
1900-01-01 00:00:00, the reference date of `then`; it is universally
quantified in the theorems, covering every wall clock. -/
def set_countdown_until_duration (nowTotal hour minute : Int) : Nat × Nat × Nat :=
  let thenTotal : Int := (hour % 24) * 3600 + (minute % 60) * 60
  let secs := timedelta_seconds_attr (thenTotal - nowTotal)
  (secs / 3600, secs % 3600 / 60, secs % 60)


/-- The status line of the specification's worked example. -/
def statusLineExample : String := "$BS-21-004593-1-D V1.18 02 05 41 59\r\n"

/-- A session that already holds one scheduler entry, as left by an earlier
successful decode or `set_scheduler` call. -/
def preSession : SessionState :=
  { emptySession with schedulers := [⟨1, "on", ⟨["Mon"], "07:30:00"⟩⟩] }

/-- A 442-character response with the `$OK` marker whose scheduler section
consists of spaces only, so that the very first scheduler field fails to
parse as an integer. -/
def badInfoResponse : String := "$OK" ++ String.mk (List.replicate 439 ' ')

end BS21

namespace BS21

/-- Helper: a response that starts with `$ERR` cannot start with `$OK`
(the characters at index 1 differ). -/
theorem litStarts_err_imp_not_ok :
    ∀ l : List Char, litStarts l ['$', 'E', 'R', 'R'] = true →
      litStarts l ['$', 'O', 'K'] = false := by
  intro l h
  match l with
  | [] => simp [litStarts] at h
  | [c] => simp [litStarts] at h
  | c0 :: c1 :: t =>
    simp only [litStarts, Bool.and_eq_true, decide_eq_true_eq] at h
    obtain ⟨h0, h1, _⟩ := h
    subst h0
    subst h1
    simp [litStarts]

/-- Helper: the same statement on strings. -/
theorem strStarts_err_imp_not_ok (r : String) (h : strStarts r "$ERR" = true) :
    strStarts r "$OK" = false := by
  have he : ("$ERR").toList = ['$', 'E', 'R', 'R'] := rfl
  have ho : ("$OK").toList = ['$', 'O', 'K'] := rfl
  unfold strStarts at h ⊢
  rw [he] at h
  rw [ho]
  exact litStarts_err_imp_not_ok r.toList h

end BS21

namespace BS21

/-- C1: the claim states `physicalSlot(20, On) = 20` and
`physicalSlot(20, Off) = 40` (a bijection onto 1..40).  The code first takes
`int(id) % 20`, so logical id 20 maps to physical slot 0 for kind On and to
slot 20 for kind Off; `reset_scheduler(20, "on")` even emits `"CLEAR00"`,
which is the clear-all payload.  This theorem evaluates the embedded slot
computation at the failing input. -/
theorem physical_slot_id20_bug :
    physical_slot 20 "on" = 0 ∧ physical_slot 20 "off" = 20
    ∧ scheduler_clear_payload 20 "on" = clear_all_payload
    ∧ ¬(physical_slot 20 "on" = 20 ∧ physical_slot 20 "off" = 40) := by decide

/-- C2 (counterexample): a 442-character `$OK` response whose scheduler
section fails to parse raises an error but leaves the session with an
emptied schedulers list, not the list it held before the call — decode
failure does partially mutate the state. -/
theorem info_decode_partial_mutation :
    (set_timers_from_response preSession badInfoResponse).2.isSome = true
    ∧ (set_timers_from_response preSession badInfoResponse).1 ≠ preSession := by decide

/-- C2 (amended): decode failures detected by the guards — a missing `$OK`
marker or a wrong length for the info telegram, and `$ERR` or a
status-grammar mismatch for the status telegram — raise an error and leave
the session state exactly as it was. -/
theorem decode_guard_failures_leave_state (st : SessionState) (r : String) :
    ((strStarts r "$OK" = false ∨ r.length ≠ 442) →
      (set_timers_from_response st r).1 = st
      ∧ (set_timers_from_response st r).2.isSome = true)
    ∧ ((strStarts r "$ERR" = true ∨ searchStatus r = none) →
      (set_state_from_response st r).1 = st
      ∧ (set_state_from_response st r).2.isSome = true) := by
  constructor
  · intro h
    cases hok : strStarts r "$OK" with
    | false => simp [set_timers_from_response, hok]
    | true =>
      have hlen : r.length ≠ 442 := by
        rcases h with h | h
        · rw [hok] at h; cases h
        · exact h
      simp [set_timers_from_response, hok, hlen]
  · intro h
    cases herr : strStarts r "$ERR" with
    | true => simp [set_state_from_response, herr]
    | false =>
      have hsearch : searchStatus r = none := by
        rcases h with h | h
        · rw [herr] at h; cases h
        · exact h
      simp [set_state_from_response, herr, hsearch]

/-- C2 (witness): the guard lemma applied to a concrete non-matching
response. -/
theorem decode_guard_failures_leave_state_witness :
    ((set_timers_from_response emptySession "XYZ").1 = emptySession
    ∧ (set_timers_from_response emptySession "XYZ").2.isSome = true)
    ∧ ((set_state_from_response emptySession "XYZ").1 = emptySession
    ∧ (set_state_from_response emptySession "XYZ").2.isSome = true) :=
  ⟨(decode_guard_failures_leave_state emptySession "XYZ").1 (Or.inl (by decide)),
   (decode_guard_failures_leave_state emptySession "XYZ").2 (Or.inr (by decide))⟩

/-- C3: for every weekday set, decoding the daymask produced by encoding it
returns exactly the chosen weekdays in Mon-to-Sun order, and the empty set
encodes to `"00"`. -/
theorem daymask_round_trip :
    (∀ mon tue wed thu fri sat sun : Bool,
      build_weekdays_and_time (build_daymask mon tue wed thu fri sat sun) "0" "0" "0" =
        some ⟨(if mon then ["Mon"] else []) ++ (if tue then ["Tue"] else [])
          ++ (if wed then ["Wed"] else []) ++ (if thu then ["Thu"] else [])
          ++ (if fri then ["Fri"] else []) ++ (if sat then ["Sat"] else [])
          ++ (if sun then ["Sun"] else []), "00:00:00"⟩)
    ∧ build_daymask false false false false false false false = "00" := by
  refine ⟨?_, by decide⟩
  intro mon tue wed thu fri sat sun
  cases mon <;> cases tue <;> cases wed <;> cases thu <;> cases fri <;>
    cases sat <;> cases sun <;> decide

end BS21

namespace BS21

/-- C4 (counterexample): a response of wrong length that also lacks the
`$OK` marker — such as `"$ERR"` — fails with the protocol-error message
("Device has explicitly responded with error"), not with the
malformed-response one: the length of the telegram is only checked after
the success marker. -/
theorem short_err_info_not_malformed :
    set_timers_from_response emptySession "$ERR" = (emptySession, some Err.protocolError)
    ∧ ("$ERR").length ≠ 442
    ∧ Err.protocolError ≠ Err.malformedResponse := by decide

/-- C4 (amended): decoding any response whose length is not 442 always
fails and never produces a partial result; the error is the
malformed-response one when the response carries the `$OK` marker, and the
protocol error otherwise. -/
theorem wrong_length_info_always_fails (st : SessionState) (r : String)
    (hlen : r.length ≠ 442) :
    set_timers_from_response st r =
      (st, some (if strStarts r "$OK" = true then Err.malformedResponse
                 else Err.protocolError)) := by
  cases hok : strStarts r "$OK" with
  | false => simp [set_timers_from_response, hok]
  | true => simp [set_timers_from_response, hok, hlen]

/-- C4 (witness): the wrong-length lemma applied to the 3-character
response `"$OK"`. -/
theorem wrong_length_info_always_fails_witness :
    set_timers_from_response emptySession "$OK" =
      (emptySession, some (if strStarts "$OK" "$OK" = true then Err.malformedResponse
                           else Err.protocolError)) :=
  wrong_length_info_always_fails emptySession "$OK" (by decide)

/-- C5 (counterexample): the claim reads the flags byte `'D'` (ordinal 68 =
64 + 4) as having the random and countdown bits set; the code's bit table
(2 = overtemp, 4 = power, 8 = random, 16 = countdown) yields
`random = false` and `countdown = false` for this status line. -/
theorem status_example_flags_bug :
    ¬((set_state_from_response emptySession statusLineExample).1.is_random = true
      ∧ (set_state_from_response emptySession statusLineExample).1.is_countdown = true) := by
  decide

/-- C5 (amended): decoding the example status line
`"$BS-21-004593-1-D V1.18 02 05 41 59\r\n"` succeeds and yields on = true,
overtemp = false, power = true, random = false, countdown = false, serial
"004593", firmware "V1.18", weekday ["Tue"] and time "05:41:59". -/
theorem status_example_decode :
    set_state_from_response emptySession statusLineExample =
      ({ emptySession with
         model := "BS-21", serial := "004593", firmware := "V1.18",
         is_on := true, is_overtemp := false, is_power := true,
         is_random := false, is_countdown := false,
         time := some ⟨["Tue"], "05:41:59"⟩ }, none) := by decide

/-- C6: the claim states the pin-change payload is formatted with the new
pin, the envelope carries the old pin, and the stored pin changes only
after acknowledgement.  The code formats the payload with the *old* pin,
overwrites the stored pin *before* sending (so the envelope carries the new
pin), and never inspects the response — contradicting the source's own
comment `"pin": "NEWC #%s ",  # % (newpin)`.  Evaluation at old pin "1234",
new pin "5678". -/
theorem change_pin_uses_old_pin_in_payload :
    change_pin "1234" "5678" =
      Except.ok ("NEWC #1234 ", "NEWC #1234 #5678\r\n", "5678") := by rfl

/-- C7: every response starting with `$ERR` makes both decode operations
fail with the protocol error and leaves the session state unchanged. -/
theorem err_response_leaves_state (st : SessionState) (r : String)
    (h : strStarts r "$ERR" = true) :
    set_state_from_response st r = (st, some Err.protocolError)
    ∧ set_timers_from_response st r = (st, some Err.protocolError) := by
  have hok : strStarts r "$OK" = false := strStarts_err_imp_not_ok r h
  constructor
  · simp [set_state_from_response, h]
  · simp [set_timers_from_response, hok]

/-- C7 (witness): the `$ERR` lemma applied to the concrete response
`"$ERRx"` and a non-empty session. -/
theorem err_response_leaves_state_witness :
    set_state_from_response preSession "$ERRx" = (preSession, some Err.protocolError)
    ∧ set_timers_from_response preSession "$ERRx" = (preSession, some Err.protocolError) :=
  err_response_leaves_state preSession "$ERRx" (by decide)

end BS21

namespace BS21

/-- C8: for all integer inputs, the time normalizer wraps out-of-range
values silently — the rendered fields are exactly `h % 24`, `m % 60` and
`s % 60`, each within its range, laid out as `hh:mm:ss`; being a total
function, it raises no error. -/
theorem build_time_normalizes (hour minute second : Int) :
    build_time hour minute second =
      fmt02 (hour % 24) ++ ":" ++ fmt02 (minute % 60) ++ ":" ++ fmt02 (second % 60)
    ∧ build_time hour minute second =
      build_time (hour % 24) (minute % 60) (second % 60)
    ∧ 0 ≤ hour % 24 ∧ hour % 24 < 24
    ∧ 0 ≤ minute % 60 ∧ minute % 60 < 60
    ∧ 0 ≤ second % 60 ∧ second % 60 < 60 := by
  have h1 : hour % 24 % 24 = hour % 24 := Int.emod_emod_of_dvd hour dvd_rfl
  have h2 : minute % 60 % 60 = minute % 60 := Int.emod_emod_of_dvd minute dvd_rfl
  have h3 : second % 60 % 60 = second % 60 := Int.emod_emod_of_dvd second dvd_rfl
  refine ⟨rfl, ?_, ?_, ?_, ?_, ?_, ?_, ?_⟩
  · simp only [build_time, h1, h2, h3]
  all_goals omega

/-- C9: the claim states `set_scheduler` is a total upsert that inserts a
new entry when the slot is absent.  The code's
`_get_or_create_and_add_scheduler` calls `next(filter(...))` without a
default, which raises `StopIteration` when the slot is absent — the
create-and-append branch below it is dead code.  Evaluation: an
acknowledged `set_scheduler(1, "on", 7:30, Mon-Fri)` on a session without
slot 1 raises instead of inserting. -/
theorem set_scheduler_absent_slot_raises :
    set_scheduler emptySession 1 "on" 7 30 true true true true true false false "$OK" =
      (emptySession, some Err.stopIteration)
    ∧ set_scheduler preSession 2 "on" 7 30 true true true true true false false "$OK" =
      (preSession, some Err.stopIteration) := by decide

/-- C10: whatever the wall clock and the (already wrapped) deadline fields,
the duration `set_countdown_until` computes and hands to `set_countdown`
has hour in [0,23] and minute/second in [0,59]; the components are natural
numbers (`timedelta.seconds` is non-negative and below 86400), so the
conversion never produces a negative value and never raises. -/
theorem set_countdown_until_duration_in_range (nowTotal hour minute : Int) :
    (set_countdown_until_duration nowTotal hour minute).1 < 24
    ∧ (set_countdown_until_duration nowTotal hour minute).2.1 < 60
    ∧ (set_countdown_until_duration nowTotal hour minute).2.2 < 60 := by
  simp only [set_countdown_until_duration, timedelta_seconds_attr]
  omega

end BS21
